import Mathlib

/-!
Verification of the chigraph graph core against its specification.

The definitions below are a shallow embedding of the C++ sources:

* `src/lib/core/src/NodeInstance.cpp` — the connection-editing operations
  `connectData`, `connectExec`, `disconnectData`, `disconnectExec` and
  `NodeInstance::setType`.
* `src/lib/core/src/FunctionCompiler.cpp` — the worklist loop of
  `FunctionCompiler::compile`.
* `src/chi/main.cpp` — the CLI entry point and its option handling.
* `src/test/GraphModuleTest.cpp` together with the declarations of
  `src/lib/core/include/chi/Context.hpp` — the observable behaviour of
  `Context` construction and module loading.

C++ `NodeInstance*` pointers are represented by natural-number node ids; a
graph is a total map from ids to node records (the spec's own design note:
edges are (id, port index) pairs, not pointers).  `std::vector` fields become
`List`s.  The `(nullptr, ~0ull)` sentinel of an unconnected slot becomes
`Option.none`.  A `chi::Result` is represented by its list of error codes
(the human messages and JSON context bags carry no information the claims
are about).  Undefined behaviour in the C++ (out-of-bounds `operator[]`,
dereferencing a null pointer, a `while` loop that can never exit) is
represented by `Option.none` results of the embedded operations; `assert`s
are embedded with release (`NDEBUG`) semantics, i.e. execution continues.
-/

namespace chi

/-- A value type.  Per the spec (§3, DataType) equality is structural over
(owning module, type name); the LLVM/debug handles play no role in the
connection-editing code. -/
structure DataType where
  module : String
  name : String
deriving DecidableEq, Repr

/-- One endpoint of a stored edge: a node id together with a port index on
that node.  This is the `std::pair<NodeInstance*, size_t>` of the source. -/
structure Conn where
  node : Nat
  idx : Nat
deriving DecidableEq, Repr

/-- The connection state of one `NodeInstance`
(`src/lib/core/include/chi/NodeInstance.hpp` fields used by
`NodeInstance.cpp`), plus the data-port types of its current `NodeType`
(`type().dataInputs()` / `type().dataOutputs()`, only the `.type` of each
`NamedDataType` is consulted by the editing code). -/
structure Node where
  inputData : List (Option Conn)
  outputData : List (List Conn)
  inputExec : List (List Conn)
  outputExec : List (Option Conn)
  dataInTypes : List DataType
  dataOutTypes : List DataType
deriving DecidableEq, Repr, Inhabited

/-- A graph function's node table: every node id holds a node record.
Ids never mentioned by edges simply map to an irrelevant default. -/
abbrev Graph := Nat → Node

/-- Replace the record of node `n`. -/
def Graph.set (g : Graph) (n : Nat) (v : Node) : Graph :=
  fun m => if m = n then v else g m

/-- A `chi::Result`, reduced to its list of error codes, in the order
`addEntry` was called.  Success (`operator bool`) is emptiness. -/
abbrev CResult := List String

/-- Index (and value) of the first connection in `l` whose target node is
`t` — the `std::find_if(..., pair.first == &rhs)` of `disconnectData`
(NodeInstance.cpp:252-254).  Note it matches on the node alone, ignoring
the port index. -/
def findConnTo : List Conn → Nat → Option (Nat × Conn)
  | [], _ => none
  | c :: rest, t =>
    if c.node = t then some (0, c)
    else (findConnTo rest t).map (fun p => (p.1 + 1, p.2))

/-- Index of the first element of `l` equal to `c` — the
`std::find_if(..., pair == std::make_pair(&lhs, lhsConnID))` of
`disconnectExec` (NodeInstance.cpp:312-313). -/
def findConnEq : List Conn → Conn → Option Nat
  | [], _ => none
  | c :: rest, t =>
    if c = t then some 0
    else (findConnEq rest t).map (· + 1)

/-- `chi::disconnectData` (NodeInstance.cpp:229-292).  Error paths return
the graph unchanged; the success path clears `rhs.inputDataConnections` at
the back-pointed index first, then erases the found element of
`lhs.outputDataConnections[lhsConnID]`, exactly as lines 288-289 do. -/
def disconnectData (g : Graph) (L lo R : Nat) : CResult × Graph :=
  if (g L).outputData.length ≤ lo then (["E22"], g)
  else
    match findConnTo ((g L).outputData[lo]?.getD []) R with
    | none => (["EUKN"], g)
    | some (k, c) =>
      if (g R).inputData.length ≤ c.idx then (["E23"], g)
      else if (g R).inputData[c.idx]?.getD none ≠ some ⟨L, lo⟩ then (["EUKN"], g)
      else
        let nR := g R
        let g1 := g.set R { nR with inputData := nR.inputData.set c.idx none }
        let nL := g1 L
        let g2 := g1.set L
          { nL with outputData := nL.outputData.set lo (((nL.outputData[lo]?).getD []).eraseIdx k) }
        ([], g2)

/-- The two endpoint writes of a successful `connectData`
(NodeInstance.cpp:180-181): push onto the source's output list, then
overwrite the destination's input slot. -/
def connectDataFinish (g : Graph) (L lo R ri : Nat) : Graph :=
  let nL := g L
  let g1 := g.set L
    { nL with outputData := nL.outputData.set lo (((nL.outputData[lo]?).getD []) ++ [⟨R, ri⟩]) }
  let nR := g1 R
  g1.set R { nR with inputData := nR.inputData.set ri (some ⟨L, lo⟩) }

/-- `chi::connectData` (NodeInstance.cpp:128-184).  Range checks accumulate
`E22`/`E23` and back out; the type check compares
`lhs.type().dataOutputs()[lhsConnID].type` with
`rhs.type().dataInputs()[rhsConnID].type` (line 165) — if either type list
is shorter than the corresponding connection vector that C++ indexing is
out of bounds, embedded as `none`.  When the destination slot is occupied,
line 176 calls `disconnectData(lhs, lhsConnID, rhs)` — with the *new*
source as the left endpoint — and backs out if that fails. -/
def connectData (g : Graph) (L lo R ri : Nat) : Option (CResult × Graph) :=
  let res0 : CResult :=
    (if (g L).outputData.length ≤ lo then ["E22"] else []) ++
    (if (g R).inputData.length ≤ ri then ["E23"] else [])
  if res0 ≠ [] then some (res0, g)
  else
    match (g L).dataOutTypes[lo]?, (g R).dataInTypes[ri]? with
    | some tL, some tR =>
      if tL ≠ tR then some (["E24"], g)
      else if ((g R).inputData[ri]?.getD none).isSome then
        let dr := disconnectData g L lo R
        if dr.1 ≠ [] then some (dr.1, dr.2)
        else some ([], connectDataFinish dr.2 L lo R ri)
      else some ([], connectDataFinish g L lo R ri)
    | _, _ => none

/-- `chi::disconnectExec` (NodeInstance.cpp:294-325).  After adding the
`E22` entry for an out-of-range `lhsConnID` the function does *not* return
(no `return res;` after line 307): line 309 then indexes
`outputExecConnections[lhsConnID]` out of bounds, and line 310 dereferences
`lhsconn.first` even when the slot holds no connection.  Both are embedded
as `none`. -/
def disconnectExec (g : Graph) (L lo : Nat) : Option (CResult × Graph) :=
  let res0 : CResult := if (g L).outputExec.length ≤ lo then ["E22"] else []
  match (g L).outputExec[lo]? with
  | none => none
  | some none => none
  | some (some c) =>
    match (g c.node).inputExec[c.idx]? with
    | none => none
    | some rhsconns =>
      match findConnEq rhsconns ⟨L, lo⟩ with
      | none => some (res0 ++ ["EUKN"], g)
      | some k =>
        let nB := g c.node
        let g1 := g.set c.node { nB with inputExec := nB.inputExec.set c.idx (rhsconns.eraseIdx k) }
        let nL := g1 L
        some (res0, g1.set L { nL with outputExec := nL.outputExec.set lo none })

/-- The two endpoint writes of a successful `connectExec`
(NodeInstance.cpp:223-224). -/
def connectExecFinish (g : Graph) (L lo R ri : Nat) : Graph :=
  let nL := g L
  let g1 := g.set L { nL with outputExec := nL.outputExec.set lo (some ⟨R, ri⟩) }
  let nR := g1 R
  g1.set R { nR with inputExec := nR.inputExec.set ri ((nR.inputExec[ri]?.getD []) ++ [⟨L, lo⟩]) }

/-- `chi::connectExec` (NodeInstance.cpp:186-227).  Replacement semantics
apply on the output side: an occupied output slot is disconnected first
(lines 217-220). -/
def connectExec (g : Graph) (L lo R ri : Nat) : Option (CResult × Graph) :=
  let res0 : CResult :=
    (if (g L).outputExec.length ≤ lo then ["E22"] else []) ++
    (if (g R).inputExec.length ≤ ri then ["E23"] else [])
  if res0 ≠ [] then some (res0, g)
  else if ((g L).outputExec[lo]?.getD none).isSome then
    match disconnectExec g L lo with
    | none => none
    | some (dres, g1) =>
      if dres ≠ [] then some (dres, g1)
      else some ([], connectExecFinish g1 L lo R ri)
  else some ([], connectExecFinish g L lo R ri)

/-- The part of a `chi::NodeType` that `NodeInstance::setType` consults:
the *sizes* of the execution port name lists, and the data-port type lists
(`dataInputs()` / `dataOutputs()`, one `DataType` per port; port names are
never compared). -/
structure NodeType where
  execInputs : Nat
  execOutputs : Nat
  dataInputs : List DataType
  dataOutputs : List DataType
deriving DecidableEq, Repr

/-- `std::vector::resize`: truncate or pad with `pad`. -/
def resizeList (l : List α) (n : Nat) (pad : α) : List α :=
  l.take n ++ List.replicate (n - l.length) pad

/-- The `while (!inputExecConnections[id].empty())` loop of
`NodeInstance::setType` (NodeInstance.cpp:62-68): repeatedly disconnect
the upstream end of the head connection.  The C++ loop exits only when the
erase inside `disconnectExec` actually empties this slot; fuel exhaustion
with a non-empty slot (the loop would spin forever) and a crashing
`disconnectExec` are both `none`.  The `assert(res.mSuccess)` has release
semantics: the loop continues regardless of the `Result`. -/
def clearExecInSlot (N id : Nat) : Nat → Graph → Option Graph
  | 0, g => if ((g N).inputExec[id]?.getD []) = [] then some g else none
  | fuel + 1, g =>
    match (g N).inputExec[id]?.getD [] with
    | [] => some g
    | c :: _ =>
      match disconnectExec g c.node c.idx with
      | none => none
      | some (_, g1) => clearExecInSlot N id fuel g1

/-- The loop over out-of-range exec-input ids (NodeInstance.cpp:61-69). -/
def clearExecInsFrom (N : Nat) : List Nat → Graph → Option Graph
  | [], g => some g
  | id :: rest, g =>
    match clearExecInSlot N id (((g N).inputExec[id]?.getD []).length + 1) g with
    | none => none
    | some g1 => clearExecInsFrom N rest g1

/-- The loop over out-of-range exec-output ids (NodeInstance.cpp:72-75):
`if (conn.first != nullptr) { disconnectExec(*this, id); }` — the returned
`Result` is discarded. -/
def clearExecOutsFrom (N : Nat) : List Nat → Graph → Option Graph
  | [], g => some g
  | id :: rest, g =>
    match (g N).outputExec[id]?.getD none with
    | none => clearExecOutsFrom N rest g
    | some _ =>
      match disconnectExec g N id with
      | none => none
      | some (_, g1) => clearExecOutsFrom N rest g1

/-- The data-input loop of `NodeInstance::setType`
(NodeInstance.cpp:78-101): for each input index of the *original* vector,
re-reading the live slot, keep the connection iff the new type still has
that index and `type().dataInputs()[id].type ==
newType->dataInputs()[id].type`; otherwise call
`disconnectData(*conn.first, conn.second, *this)` (result only asserted,
release semantics continue).  Indexing `type().dataInputs()[id]` past the
old type's port list is C++ UB, embedded as `none`. -/
def setTypeDataInLoop (N : Nat) (newIn : List DataType) : List Nat → Graph → Option Graph
  | [], g => some g
  | id :: rest, g =>
    match (g N).inputData[id]?.getD none with
    | none => setTypeDataInLoop N newIn rest g
    | some c =>
      if newIn.length ≤ id then
        let dr := disconnectData g c.node c.idx N
        setTypeDataInLoop N newIn rest dr.2
      else
        match (g N).dataInTypes[id]?, newIn[id]? with
        | some oldT, some newT =>
          if oldT = newT then setTypeDataInLoop N newIn rest g
          else
            let dr := disconnectData g c.node c.idx N
            setTypeDataInLoop N newIn rest dr.2
        | _, _ => none

/-- The `while (!connSlot.empty())` loop of the data-output phase
(NodeInstance.cpp:113-119): disconnect `(this, id)` from the head's target
node until the slot empties.  As with the exec loop, failure to make
progress is divergence, embedded as `none`. -/
def clearDataOutSlot (N id : Nat) : Nat → Graph → Option Graph
  | 0, g => if ((g N).outputData[id]?.getD []) = [] then some g else none
  | fuel + 1, g =>
    match (g N).outputData[id]?.getD [] with
    | [] => some g
    | c :: _ =>
      let dr := disconnectData g N id c.node
      clearDataOutSlot N id fuel dr.2

/-- The data-output loop of `NodeInstance::setType`
(NodeInstance.cpp:104-121): keep the whole slot iff the new type still has
the index and the old and new port types agree, else clear it. -/
def setTypeDataOutLoop (N : Nat) (newOut : List DataType) : List Nat → Graph → Option Graph
  | [], g => some g
  | id :: rest, g =>
    if newOut.length ≤ id then
      match clearDataOutSlot N id (((g N).outputData[id]?.getD []).length + 1) g with
      | none => none
      | some g1 => setTypeDataOutLoop N newOut rest g1
    else
      match (g N).dataOutTypes[id]?, newOut[id]? with
      | some oldT, some newT =>
        if oldT = newT then setTypeDataOutLoop N newOut rest g
        else
          match clearDataOutSlot N id (((g N).outputData[id]?.getD []).length + 1) g with
          | none => none
          | some g1 => setTypeDataOutLoop N newOut rest g1
      | _, _ => none

/-- `chi::NodeInstance::setType` (NodeInstance.cpp:56-126), phase by phase
in source order: clear + resize exec inputs, clear + resize exec outputs,
filter + resize data inputs, filter + resize data outputs, finally install
the new type (`mType = std::move(newType)`), embedded as replacing the
node's data-port type lists. -/
def setType (g : Graph) (N : Nat) (T : NodeType) : Option Graph :=
  match clearExecInsFrom N
      (List.range' T.execInputs ((g N).inputExec.length - T.execInputs)) g with
  | none => none
  | some g1 =>
    let n1 := g1 N
    let g2 := g1.set N { n1 with inputExec := resizeList n1.inputExec T.execInputs [] }
    match clearExecOutsFrom N
        (List.range' T.execOutputs ((g2 N).outputExec.length - T.execOutputs)) g2 with
    | none => none
    | some g3 =>
      let n3 := g3 N
      let g4 := g3.set N { n3 with outputExec := resizeList n3.outputExec T.execOutputs none }
      match setTypeDataInLoop N T.dataInputs (List.range ((g4 N).inputData.length)) g4 with
      | none => none
      | some g5 =>
        let n5 := g5 N
        let g6 := g5.set N { n5 with inputData := resizeList n5.inputData T.dataInputs.length none }
        match setTypeDataOutLoop N T.dataOutputs (List.range ((g6 N).outputData.length)) g6 with
        | none => none
        | some g7 =>
          let n7 := g7 N
          let g8 := g7.set N
            { n7 with outputData := resizeList n7.outputData T.dataOutputs.length [] }
          let n8 := g8 N
          some (g8.set N { n8 with dataInTypes := T.dataInputs, dataOutTypes := T.dataOutputs })

/-! ## The `FunctionCompiler::compile` worklist

`FunctionCompiler.cpp:198-273`.  Only the execution-edge structure matters
to the scheduling claim: `succs n` lists `n.outputExecConnections` in port
order as `(target node, target input exec id)` pairs (for a validated
function every reachable output exec slot is connected, so the successor
list is total here).

Modelled from the spec: the `NodeCompiler` class (its sources are not under
`src/`; only its caller `FunctionCompiler.cpp` is).  Per spec §4.3 each
node compiler keeps per-`input_exec_id` state `NotStarted → Stage1 → Stage2`
with idempotent transitions; `compiled(id)` reports Stage 2 done for `id`,
`compile_stage1(id)` creates the first block for `id`, and
`compile_stage2(blocks, id)` emits the body and marks `compiled(id)`.
The embedding therefore records the set of Stage-2-compiled pairs
(`compiledPairs`), the pairs Stage 1 has been run on (`stage1Pairs`), and
the order of Stage 2 invocations made by the worklist (`stage2Log`).
`compile_stage2` of a validated function is taken to succeed (the loop's
early-error returns are not exercised). -/

/-- Execution-edge successor structure of a graph function. -/
structure ExecGraph where
  succs : Nat → List (Nat × Nat)

/-- State of the worklist loop in `FunctionCompiler::compile`. -/
structure CompState where
  queue : List (Nat × Nat)
  compiledPairs : List (Nat × Nat)
  stage1Pairs : List (Nat × Nat)
  stage2Log : List (Nat × Nat)
deriving DecidableEq, Repr

/-- `nodesToCompile.emplace_back(entry, 0)` (FunctionCompiler.cpp:207). -/
def initialState (e : Nat) : CompState := ⟨[(e, 0)], [], [], []⟩

/-- One iteration of the `while (!nodesToCompile.empty())` loop
(FunctionCompiler.cpp:224-265): dequeue `(node, inputExecID)`; if the node
compiler already reports `compiled(inputExecID)` just pop; otherwise run
pure dependencies, Stage 1 on every exec successor, Stage 2 on the node,
enqueue all successors at the back, and pop. -/
def compileStep (G : ExecGraph) (s : CompState) : CompState :=
  match s.queue with
  | [] => s
  | (n, id) :: rest =>
    if (n, id) ∈ s.compiledPairs then { s with queue := rest }
    else
      { queue := rest ++ G.succs n,
        compiledPairs := (n, id) :: s.compiledPairs,
        stage1Pairs := G.succs n ++ s.stage1Pairs,
        stage2Log := s.stage2Log ++ [(n, id)] }

/-- Iterate the worklist loop `fuel` times. -/
def compileRun (G : ExecGraph) : Nat → CompState → CompState
  | 0, s => s
  | fuel + 1, s => compileRun G fuel (compileStep G s)

/-- The final state of `FunctionCompiler::compile` on entry node `e`. -/
def finalCompState (G : ExecGraph) (e fuel : Nat) : CompState :=
  compileRun G fuel (initialState e)

/-- `(n, id)` can be entered from `(entry, 0)` over execution edges. -/
inductive ReachPair (G : ExecGraph) (e : Nat) : Nat × Nat → Prop
  | entry : ReachPair G e (e, 0)
  | step {n id m j} : ReachPair G e (n, id) → (m, j) ∈ G.succs n → ReachPair G e (m, j)

/-! ## Context and module loading

Modelled from the spec: the bodies of `Context::Context`,
`Context::newGraphModule`, `Context::moduleByFullName` and
`GraphModule::addDependency` (`Context.cpp` / `GraphModule.cpp` are not
under `src/`; only the declarations in `chi/Context.hpp` and the test
`src/test/GraphModuleTest.cpp` are).  The test pins the construction
behaviour: after `Context c;` and one `c.newGraphModule("test/main")`,
`c.modules().size() == 1` (GraphModuleTest.cpp:11-14) — so a fresh Context
holds no modules at all; and only after `gMod->addDependency("lang")` do
`c.modules().size() == 2` and `c.moduleByFullName("lang") != nullptr` hold
(GraphModuleTest.cpp:21-24) — so the `lang` module is loaded on demand.
A module is represented by its full name; `lang` is the only built-in
module `loadModule` can produce without a workspace. -/

/-- The set of loaded modules of a `chi::Context`, keyed by full name, in
load order. -/
structure CContext where
  modules : List String
deriving DecidableEq, Repr

/-- A fresh `Context` (Context.hpp:58): no modules are loaded yet. -/
def CContext.fresh : CContext := ⟨[]⟩

/-- `Context::newGraphModule`: creates and registers one new module. -/
def CContext.newGraphModule (c : CContext) (fullName : String) : CContext :=
  ⟨c.modules ++ [fullName]⟩

/-- `Context::moduleByFullName`: the loaded module with that full name, or
null. -/
def CContext.moduleByFullName (c : CContext) (fullName : String) : Option String :=
  c.modules.find? (fun m => m = fullName)

/-- `Context::loadModule` as exercised through
`GraphModule::addDependency("lang")` in the test: already-loaded modules
are returned as-is, the built-in `lang` module is created on first demand,
anything else fails without loading (GraphModuleTest.cpp:32-35). -/
def CContext.loadModule (c : CContext) (fullName : String) : Bool × CContext :=
  if c.modules.contains fullName then (true, c)
  else if fullName = "lang" then (true, ⟨c.modules ++ ["lang"]⟩)
  else (false, c)

/-- `GraphModule::addDependency`, restricted to its effect on the owning
Context: it loads the dependency module. -/
def CContext.addDependencyLoad (c : CContext) (dep : String) : CContext :=
  (c.loadModule dep).2

/-! ## The CLI entry point

`src/chi/main.cpp:36-86`, together with the documented storage rule of
`boost::program_options`: an option registered as `("change-dir,C", ...)`
has long name `change-dir` and short name `-C`, and `po::store` files every
parsed occurrence in the `variables_map` under the option's *long* name;
`variables_map::count(key)` / `operator[]` look the key up verbatim.
The embedding parses the argument vector the way the registered option set
does (`-C`/`--change-dir` take a value; the first positional token is
`command`, the rest are `subargs`, which the claim does not touch). -/

/-- Split an argument list into the named-option store (keyed by long
name) and the positional tokens, mirroring `po::command_line_parser` with
the options and positional description of `main.cpp:43-51`. -/
def parseTokens : List String → List (String × String) × List String
  | [] => ([], [])
  | "-C" :: v :: rest =>
    let (o, p) := parseTokens rest
    (("change-dir", v) :: o, p)
  | "--change-dir" :: v :: rest =>
    let (o, p) := parseTokens rest
    (("change-dir", v) :: o, p)
  | tok :: rest =>
    let (o, p) := parseTokens rest
    (o, tok :: p)

/-- The `po::variables_map` after `po::store` + `po::notify`: named options
under their long names, plus the first positional token under `command`. -/
def buildVariablesMap (args : List String) : List (String × String) :=
  let op := parseTokens args
  op.1 ++ (match op.2 with
           | [] => []
           | c :: _ => [("command", c)])

/-- `vm.count(key)`. -/
def vmCount (vm : List (String × String)) (key : String) : Nat :=
  (vm.filter (fun e => e.1 = key)).length

/-- `vm[key].as<std::string>()`, for present keys. -/
def vmGet (vm : List (String × String)) (key : String) : Option String :=
  (vm.find? (fun e => e.1 = key)).map (fun e => e.2)

/-- Observable outcome of `main`: the process working directory at
dispatch time, and which command (if any) was dispatched. -/
structure CliOutcome where
  workingDir : String
  dispatched : Option String
deriving DecidableEq, Repr

/-- `main` (main.cpp:36-86) on an initial working directory and the
argument vector after the program name: parse, then
`if (vm.count("C") == 1) { boost::filesystem::current_path(vm["C"].as<std::string>()); }`
(line 65), then dispatch on the `command` token. -/
def chiMain (initialCwd : String) (args : List String) : CliOutcome :=
  let vm := buildVariablesMap args
  let cwd := if vmCount vm "C" = 1 then (vmGet vm "C").getD initialCwd else initialCwd
  if vmCount vm "command" ≠ 1 then { workingDir := cwd, dispatched := none }
  else { workingDir := cwd, dispatched := vmGet vm "command" }

/-! ## Symmetry predicate and concrete fixtures -/

/-- The data half of the spec's connection-symmetry invariant (§3, §8),
over the nodes in `ns`: every `(B, j)` stored in some `A.output_data[i]`
is mirrored by `B.input_data[j] = (A, i)`. -/
def dataEdgesSymmetric (g : Graph) (ns : List Nat) : Prop :=
  ∀ A ∈ ns, ∀ i < (g A).outputData.length,
    ∀ c ∈ (g A).outputData[i]?.getD [], (g c.node).inputData[c.idx]?.getD none = some ⟨A, i⟩

/-- `lang:i32`. -/
def i32T : DataType := ⟨"lang", "i32"⟩

/-- `lang:f64`. -/
def f64T : DataType := ⟨"lang", "f64"⟩

/-- Three nodes: `L = 0` (one `i32` data output, no edges), `R = 1` (one
`i32` data input, already fed by `P`), `P = 2` (one `i32` data output
feeding `R.input_data[0]`). -/
def gC1 : Graph := fun n =>
  if n = 0 then { (default : Node) with outputData := [[]], dataOutTypes := [i32T] }
  else if n = 1 then { (default : Node) with inputData := [some ⟨2, 0⟩], dataInTypes := [i32T] }
  else if n = 2 then { (default : Node) with outputData := [[⟨1, 0⟩]], dataOutTypes := [i32T] }
  else default

/-- Two nodes: `L = 0` with one `i32` data output, `R = 1` with two `i32`
data inputs, no edges yet. -/
def gC2 : Graph := fun n =>
  if n = 0 then { (default : Node) with outputData := [[]], dataOutTypes := [i32T] }
  else if n = 1 then
    { (default : Node) with inputData := [none, none], dataInTypes := [i32T, i32T] }
  else default

/-- The edit sequence `connect_data(L,0,R,0); connect_data(L,0,R,1);
connect_data(L,0,R,1); disconnect_data(L,0,R)` on `gC2` (all four calls
in-range and type-correct). -/
def editsC2 : Option Graph :=
  (connectData gC2 0 0 1 0).bind fun p1 =>
  (connectData p1.2 0 0 1 1).bind fun p2 =>
  (connectData p2.2 0 0 1 1).bind fun p3 =>
  some (disconnectData p3.2 0 0 1).2

/-- The graph after `editsC2`. -/
def gC2final : Graph := editsC2.getD default

/-- Two nodes: `P = 0` with one `i32` data output feeding both inputs of
`N = 1`, whose two data inputs are both `i32`. -/
def gC3 : Graph := fun n =>
  if n = 0 then { (default : Node) with outputData := [[⟨1, 0⟩, ⟨1, 1⟩]], dataOutTypes := [i32T] }
  else if n = 1 then
    { (default : Node) with inputData := [some ⟨0, 0⟩, some ⟨0, 0⟩], dataInTypes := [i32T, i32T] }
  else default

/-- A replacement type for node `N = 1` of `gC3`: data input 0 keeps type
`i32`, data input 1 changes to `f64`. -/
def typeC3 : NodeType := ⟨0, 0, [i32T, f64T], []⟩

/-- Two nodes: `L = 0` with one `i32` data output, `R = 1` with one `f64`
data input; no exec ports, no edges. -/
def gC4 : Graph := fun n =>
  if n = 0 then { (default : Node) with outputData := [[]], dataOutTypes := [i32T] }
  else if n = 1 then { (default : Node) with inputData := [none], dataInTypes := [f64T] }
  else default

/-- One node `L = 0` with a single, unconnected output exec slot. -/
def gC6 : Graph := fun n =>
  if n = 0 then { (default : Node) with outputExec := [none] } else default

/-- Exec successors for the C7 witness: entry `0` branches to `(1, 0)`,
node `1` has no successors. -/
def execGC7 : ExecGraph := ⟨fun n => if n = 0 then [(1, 0)] else []⟩

/-! ## Worklist invariant for `FunctionCompiler::compile` -/

/-- Invariant of the worklist loop: everything compiled or queued is
reachable, compiled pairs have all successors compiled or queued, the
entry pair is accounted for, Stage 2 ran exactly for the compiled pairs
and never twice, and every successor of a compiled pair has had Stage 1
run. -/
structure WorklistInv (G : ExecGraph) (e : Nat) (s : CompState) : Prop where
  done_reach : ∀ p ∈ s.compiledPairs, ReachPair G e p
  queue_reach : ∀ p ∈ s.queue, ReachPair G e p
  closed : ∀ p ∈ s.compiledPairs, ∀ q ∈ G.succs p.1, q ∈ s.compiledPairs ∨ q ∈ s.queue
  entry_mem : (e, 0) ∈ s.compiledPairs ∨ (e, 0) ∈ s.queue
  done_nodup : s.compiledPairs.Nodup
  log_iff : ∀ p, p ∈ s.stage2Log ↔ p ∈ s.compiledPairs
  log_nodup : s.stage2Log.Nodup
  stage1_done : ∀ p ∈ s.compiledPairs, ∀ q ∈ G.succs p.1, q ∈ s.stage1Pairs

/-! ## Theorems -/

theorem compileStep_nil {G : ExecGraph} {s : CompState} (h : s.queue = []) :
    compileStep G s = s := by
  simp [compileStep, h]

theorem compileStep_skip {G : ExecGraph} {s : CompState} {n id : Nat} {rest : List (Nat × Nat)}
    (h : s.queue = (n, id) :: rest) (hmem : (n, id) ∈ s.compiledPairs) :
    compileStep G s = { s with queue := rest } := by
  simp [compileStep, h, hmem]

theorem compileStep_proc {G : ExecGraph} {s : CompState} {n id : Nat} {rest : List (Nat × Nat)}
    (h : s.queue = (n, id) :: rest) (hmem : (n, id) ∉ s.compiledPairs) :
    compileStep G s =
      { queue := rest ++ G.succs n,
        compiledPairs := (n, id) :: s.compiledPairs,
        stage1Pairs := G.succs n ++ s.stage1Pairs,
        stage2Log := s.stage2Log ++ [(n, id)] } := by
  simp [compileStep, h, hmem]

theorem worklistInv_init (G : ExecGraph) (e : Nat) : WorklistInv G e (initialState e) where
  done_reach := by simp [initialState]
  queue_reach := by
    intro p hp
    simp [initialState] at hp
    subst hp
    exact ReachPair.entry
  closed := by simp [initialState]
  entry_mem := by simp [initialState]
  done_nodup := by simp [initialState]
  log_iff := by simp [initialState]
  log_nodup := by simp [initialState]
  stage1_done := by simp [initialState]

theorem worklistInv_step {G : ExecGraph} {e : Nat} {s : CompState}
    (h : WorklistInv G e s) : WorklistInv G e (compileStep G s) := by
  rcases hq : s.queue with _ | ⟨⟨n, id⟩, rest⟩
  · rw [compileStep_nil hq]
    exact h
  · by_cases hmem : (n, id) ∈ s.compiledPairs
    · rw [compileStep_skip hq hmem]
      refine ⟨h.done_reach, ?_, ?_, ?_, h.done_nodup, h.log_iff, h.log_nodup, h.stage1_done⟩
      · intro p hp
        exact h.queue_reach p (by rw [hq]; exact List.mem_cons_of_mem _ hp)
      · intro p hp q hqs
        rcases h.closed p hp q hqs with hd | hqu
        · exact Or.inl hd
        · rw [hq] at hqu
          rcases List.mem_cons.1 hqu with heq | hr
          · subst heq
            exact Or.inl hmem
          · exact Or.inr hr
      · rcases h.entry_mem with hd | hqu
        · exact Or.inl hd
        · rw [hq] at hqu
          rcases List.mem_cons.1 hqu with heq | hr
          · rw [heq]
            exact Or.inl hmem
          · exact Or.inr hr
    · rw [compileStep_proc hq hmem]
      have hreach : ReachPair G e (n, id) := h.queue_reach (n, id) (by rw [hq]; exact List.mem_cons_self _ _)
      refine ⟨?_, ?_, ?_, ?_, ?_, ?_, ?_, ?_⟩
      · intro p hp
        rcases List.mem_cons.1 hp with heq | hd
        · rw [heq]
          exact hreach
        · exact h.done_reach p hd
      · intro p hp
        rcases List.mem_append.1 hp with hr | hsucc
        · exact h.queue_reach p (by rw [hq]; exact List.mem_cons_of_mem _ hr)
        · exact ReachPair.step hreach hsucc
      · intro p hp q hqs
        rcases List.mem_cons.1 hp with heq | hd
        · subst heq
          exact Or.inr (List.mem_append.2 (Or.inr hqs))
        · rcases h.closed p hd q hqs with hdq | hqu
          · exact Or.inl (List.mem_cons_of_mem _ hdq)
          · rw [hq] at hqu
            rcases List.mem_cons.1 hqu with heq2 | hr
            · rw [heq2]
              exact Or.inl (List.mem_cons_self _ _)
            · exact Or.inr (List.mem_append.2 (Or.inl hr))
      · rcases h.entry_mem with hd | hqu
        · exact Or.inl (List.mem_cons_of_mem _ hd)
        · rw [hq] at hqu
          rcases List.mem_cons.1 hqu with heq | hr
          · rw [heq]
            exact Or.inl (List.mem_cons_self _ _)
          · exact Or.inr (List.mem_append.2 (Or.inl hr))
      · exact List.nodup_cons.2 ⟨hmem, h.done_nodup⟩
      · intro p
        rw [List.mem_append, List.mem_singleton, List.mem_cons, h.log_iff p]
        tauto
      · refine List.Nodup.append h.log_nodup (List.nodup_singleton _) ?_
        intro a ha hb
        rw [List.mem_singleton] at hb
        subst hb
        exact hmem ((h.log_iff _).1 ha)
      · intro p hp q hqs
        rcases List.mem_cons.1 hp with heq | hd
        · subst heq
          exact List.mem_append.2 (Or.inl hqs)
        · exact List.mem_append.2 (Or.inr (h.stage1_done p hd q hqs))

theorem worklistInv_run (G : ExecGraph) (e : Nat) :
    ∀ (fuel : Nat) (s : CompState), WorklistInv G e s → WorklistInv G e (compileRun G fuel s)
  | 0, _, h => h
  | fuel + 1, s, h => worklistInv_run G e fuel (compileStep G s) (worklistInv_step h)

/-- **C1.** Claimed: with `R.input_data[i]` occupied, `connect_data(L, o, R, i)`
succeeds, first disconnecting the prior edge, leaving `R.input_data[i] = (L, o)`
and the prior source's `output_data` no longer referencing `R`.  False on the
code: in `gC1`, `R = 1`'s input 0 is occupied by `P = 2`, all indices are
in range and all types are `i32`, yet `connectData 0 0 1 0` returns an
`EUKN` entry and changes nothing — `R.input_data[0]` still points at
`(P, 0)`, `L`'s output list stays empty and `P`'s still references `R`,
because NodeInstance.cpp:176 disconnects `(lhs, lhsConnID, rhs)` (the new
source) instead of the prior source, and no such edge exists. -/
theorem connectData_occupied_replacement_fails :
    (connectData gC1 0 0 1 0).map
        (fun pr => (pr.1, (pr.2 1).inputData, (pr.2 0).outputData, (pr.2 2).outputData)) =
      some (["EUKN"], [some ⟨2, 0⟩], [[]], [[⟨1, 0⟩]]) := by
  rfl

/-- **C2.** Claimed: connection symmetry is preserved by every sequence of
`connect_*`/`disconnect_*` calls.  False on the code: starting from `gC2`
(no edges), the four-call sequence `editsC2` — every call in range and
type-correct — ends with `L.output_data[0]` still containing `(R, 1)`
while `R.input_data[1]` is empty: a dangling one-sided edge.  The third
`connect_data(0,0,1,1)` call disconnects the wrong edge (the first edge
from `(L,0)` to `R`, which feeds input 0) and then appends a duplicate
`(R,1)` entry, which the final `disconnect_data` removes only once. -/
theorem edit_sequence_breaks_symmetry :
    editsC2.isSome = true ∧
    (gC2final 0).outputData = [[⟨1, 1⟩]] ∧
    (gC2final 1).inputData = [none, none] ∧
    ¬ dataEdgesSymmetric gC2final [0, 1] := by
  refine ⟨by rfl, by rfl, by rfl, ?_⟩
  intro h
  have hmem : (⟨1, 1⟩ : Conn) ∈ (gC2final 0).outputData[0]?.getD [] := by decide
  have := h 0 (by decide) 0 (by decide) ⟨1, 1⟩ hmem
  simp only [show (gC2final 1).inputData[1]?.getD none = none from rfl] at this
  exact Option.noConfusion this

/-- **C3.** Claimed: `set_type(N, T')` keeps exactly the data edges whose
port index survives with an equal `DataType` and removes the rest cleanly.
False on the code: in `gC3`, `(P,0)` feeds both inputs of `N = 1` (both
`i32`); the new type `typeC3` keeps index 0 as `i32` and retypes index 1
to `f64`.  The claim requires the edge into input 0 to survive and the
edge into input 1 to go; the code does the opposite — after `setType`,
`N.input_data = [none, some (P,0)]` and `P.output_data[0] = [(N,1)]` —
because `disconnectData(P, 0, N)` (NodeInstance.cpp:96) matches the first
edge from `(P,0)` to `N` by node alone, hitting input 0 instead of
input 1, and the retyped edge survives with mismatched types. -/
theorem setType_prunes_wrong_edge :
    (setType gC3 1 typeC3).map
        (fun g => ((g 1).inputData, (g 1).dataInTypes, (g 0).outputData)) =
      some ([none, some ⟨0, 0⟩], [i32T, f64T], [[⟨1, 1⟩]]) := by
  rfl

/-- **C4.** For in-range indices whose data types differ, `connectData`
returns a `Result` whose only entry is `E24` and the graph — in particular
every connection vector of both nodes — is exactly as before the call
(NodeInstance.cpp:164-172 returns before any mutation). -/
theorem connectData_type_mismatch_atomic (g : Graph) (L lo R ri : Nat) (tL tR : DataType)
    (hlo : lo < (g L).outputData.length) (hri : ri < (g R).inputData.length)
    (htL : (g L).dataOutTypes[lo]? = some tL) (htR : (g R).dataInTypes[ri]? = some tR)
    (hne : tL ≠ tR) :
    connectData g L lo R ri = some (["E24"], g) := by
  simp [connectData, htL, htR, hne, Nat.not_le.mpr hlo, Nat.not_le.mpr hri]

/-- Witness for C4: connecting `lang:i32` to `lang:f64` on `gC4`. -/
theorem connectData_type_mismatch_atomic_witness :
    0 < (gC4 0).outputData.length ∧ 0 < (gC4 1).inputData.length ∧
    (gC4 0).dataOutTypes[0]? = some i32T ∧ (gC4 1).dataInTypes[0]? = some f64T ∧
    i32T ≠ f64T ∧ connectData gC4 0 0 1 0 = some (["E24"], gC4) :=
  ⟨by decide, by decide, by rfl, by rfl, by decide,
   connectData_type_mismatch_atomic gC4 0 0 1 0 i32T f64T (by decide) (by decide) rfl rfl
     (by decide)⟩

/-- **C5.** When the output index or the input index (or both) is out of
range, `connectData` and `connectExec` fail, accumulating `E22` for the
out-of-range output index and `E23` for the out-of-range input index
(both entries when both are out of range), and return the graph — hence
every connection vector of both nodes — unchanged
(NodeInstance.cpp:137-163 and 194-215). -/
theorem connect_out_of_range_atomic (g : Graph) (L lo R ri : Nat) :
    ((g L).outputData.length ≤ lo ∨ (g R).inputData.length ≤ ri →
      ∃ res, connectData g L lo R ri = some (res, g) ∧
        ((g L).outputData.length ≤ lo → "E22" ∈ res) ∧
        ((g R).inputData.length ≤ ri → "E23" ∈ res)) ∧
    ((g L).outputExec.length ≤ lo ∨ (g R).inputExec.length ≤ ri →
      ∃ res, connectExec g L lo R ri = some (res, g) ∧
        ((g L).outputExec.length ≤ lo → "E22" ∈ res) ∧
        ((g R).inputExec.length ≤ ri → "E23" ∈ res)) := by
  constructor
  · intro h
    by_cases h1 : (g L).outputData.length ≤ lo
    · by_cases h2 : (g R).inputData.length ≤ ri
      · exact ⟨["E22", "E23"], by simp [connectData, h1, h2], fun _ => by simp,
          fun _ => by simp⟩
      · exact ⟨["E22"], by simp [connectData, h1, h2], fun _ => by simp,
          fun hx => absurd hx h2⟩
    · by_cases h2 : (g R).inputData.length ≤ ri
      · exact ⟨["E23"], by simp [connectData, h1, h2], fun hx => absurd hx h1,
          fun _ => by simp⟩
      · rcases h with h | h
        · exact absurd h h1
        · exact absurd h h2
  · intro h
    by_cases h1 : (g L).outputExec.length ≤ lo
    · by_cases h2 : (g R).inputExec.length ≤ ri
      · exact ⟨["E22", "E23"], by simp [connectExec, h1, h2], fun _ => by simp,
          fun _ => by simp⟩
      · exact ⟨["E22"], by simp [connectExec, h1, h2], fun _ => by simp,
          fun hx => absurd hx h2⟩
    · by_cases h2 : (g R).inputExec.length ≤ ri
      · exact ⟨["E23"], by simp [connectExec, h1, h2], fun hx => absurd hx h1,
          fun _ => by simp⟩
      · rcases h with h | h
        · exact absurd h h1
        · exact absurd h h2

/-- Witness for C5: on `gC4`, both index 3 (output) and index 7 (input)
are out of range for the data and the exec vectors alike. -/
theorem connect_out_of_range_atomic_witness :
    (∃ res, connectData gC4 0 3 1 7 = some (res, gC4) ∧
      ((gC4 0).outputData.length ≤ 3 → "E22" ∈ res) ∧
      ((gC4 1).inputData.length ≤ 7 → "E23" ∈ res)) ∧
    (∃ res, connectExec gC4 0 3 1 7 = some (res, gC4) ∧
      ((gC4 0).outputExec.length ≤ 3 → "E22" ∈ res) ∧
      ((gC4 1).inputExec.length ≤ 7 → "E23" ∈ res)) :=
  ⟨(connect_out_of_range_atomic gC4 0 3 1 7).1 (by decide),
   (connect_out_of_range_atomic gC4 0 3 1 7).2 (by decide)⟩

/-- **C6.** Claimed: when the stored dual pointer for the requested edge
is absent, `disconnect_data` / `disconnect_exec` return a `Result` with an
error entry and leave both nodes' connection vectors unchanged.  False on
the code for `disconnect_exec`: on `gC6`, node 0's output exec slot 0 is
in range but holds no connection — there is no edge, yet instead of
returning an error `Result` the code dereferences `lhsconn.first`, a null
pointer (NodeInstance.cpp:310); the embedding yields `none` (crash), not a
`Result`. -/
theorem disconnectExec_absent_edge_crashes :
    disconnectExec gC6 0 0 = none := by
  rfl

/-- **C7.** (NodeCompiler modelled from spec §4.3, see above.)  Whenever
the worklist of `FunctionCompiler::compile` drains, Stage 2 has been
invoked exactly once per `(node, input_exec_id)` pair reachable from
`(entry, 0)` over execution edges — already-compiled dequeued pairs are
skipped, so the invocation log is duplicate-free and covers precisely the
reachable pairs — and every exec successor of a compiled pair has had
Stage 1 run (its first block exists as a branch target). -/
theorem compile_stage2_once_per_reachable_pair (G : ExecGraph) (e fuel : Nat)
    (hterm : (finalCompState G e fuel).queue = []) :
    (∀ p, p ∈ (finalCompState G e fuel).stage2Log ↔ ReachPair G e p) ∧
    (finalCompState G e fuel).stage2Log.Nodup ∧
    (∀ p ∈ (finalCompState G e fuel).stage2Log, ∀ q ∈ G.succs p.1,
      q ∈ (finalCompState G e fuel).stage1Pairs) := by
  have hinv : WorklistInv G e (finalCompState G e fuel) :=
    worklistInv_run G e fuel (initialState e) (worklistInv_init G e)
  have hcomplete : ∀ p, ReachPair G e p → p ∈ (finalCompState G e fuel).compiledPairs := by
    intro p hr
    induction hr with
    | entry =>
      rcases hinv.entry_mem with hd | hqu
      · exact hd
      · rw [hterm] at hqu
        exact absurd hqu (List.not_mem_nil _)
    | step hprev hsucc ih =>
      rcases hinv.closed _ ih _ hsucc with hd | hqu
      · exact hd
      · rw [hterm] at hqu
        exact absurd hqu (List.not_mem_nil _)
  refine ⟨fun p => ⟨fun hp => hinv.done_reach p ((hinv.log_iff p).1 hp),
                    fun hr => (hinv.log_iff p).2 (hcomplete p hr)⟩,
          hinv.log_nodup,
          fun p hp q hqs => hinv.stage1_done p ((hinv.log_iff p).1 hp) q hqs⟩

/-- Witness for C7: on the two-node exec graph `execGC7`, 3 loop
iterations drain the worklist. -/
theorem compile_stage2_once_witness :
    (finalCompState execGC7 0 3).queue = [] ∧
    ((∀ p, p ∈ (finalCompState execGC7 0 3).stage2Log ↔ ReachPair execGC7 0 p) ∧
     (finalCompState execGC7 0 3).stage2Log.Nodup ∧
     (∀ p ∈ (finalCompState execGC7 0 3).stage2Log, ∀ q ∈ execGC7.succs p.1,
       q ∈ (finalCompState execGC7 0 3).stage1Pairs)) :=
  ⟨by decide, compile_stage2_once_per_reachable_pair execGC7 0 3 (by decide)⟩

/-- **C8 counterexample.** Claimed: every freshly constructed `Context`
already contains the `lang` module.  False on the code as pinned by
`GraphModuleTest.cpp:11-14`: a fresh Context holds no modules at all, so
`moduleByFullName("lang")` is null. -/
theorem fresh_context_has_no_lang :
    CContext.fresh.moduleByFullName "lang" = none ∧ CContext.fresh.modules = [] := by
  decide

/-- **C8 amended.** A freshly constructed `Context` contains no modules;
the `lang` module is loaded on demand — mirroring GraphModuleTest.cpp, a
fresh Context plus one `newGraphModule` holds exactly one module and still
no `lang`, and after `addDependency("lang")` the Context holds two modules
and `moduleByFullName("lang")` is non-null. -/
theorem lang_module_loaded_on_demand :
    (CContext.fresh.newGraphModule "test/main").modules.length = 1 ∧
    (CContext.fresh.newGraphModule "test/main").moduleByFullName "lang" = none ∧
    (((CContext.fresh.newGraphModule "test/main").addDependencyLoad "lang").moduleByFullName
      "lang") = some "lang" ∧
    ((CContext.fresh.newGraphModule "test/main").addDependencyLoad "lang").modules.length = 2 := by
  decide

/-- **C9.** Claimed: `-C <dir>` changes the working directory before the
command is dispatched.  False on the code: `main.cpp:65` tests
`vm.count("C")`, but `boost::program_options` stores the option registered
as `"change-dir,C"` under its long name `change-dir`, so the count is 0,
`current_path` is never called, and `compile` is dispatched with the
working directory unchanged — contradicting the file's own help text
(`Usage: chi [ -C <path> ] <command> ...`). -/
theorem dash_C_never_changes_directory :
    chiMain "/work" ["-C", "/other", "compile", "mod"] =
      { workingDir := "/work", dispatched := some "compile" } := by
  rfl

/-- **C10.** Claimed: with `lhsConnID` out of range (or the slot
unconnected) `disconnectExec` returns its error `Result` without reading
`outputExecConnections[lhsConnID]`.  False on the code: on `gC6` (one
output exec slot) the call with `lhsConnID = 5` adds the `E22` entry but,
lacking the early return after NodeInstance.cpp:307, proceeds to index
`outputExecConnections[5]` out of bounds at line 309; the embedding yields
`none` (undefined behaviour), not the `E22` `Result`. -/
theorem disconnectExec_out_of_range_reads_slot :
    disconnectExec gC6 0 5 = none := by
  rfl

end chi

